import Mathlib

/-!
# Verification of `Docker/scripts/get_onnx_info.py`

Shallow embedding of the 12-line utility script that loads an ONNX model
file and prints, for each graph input tensor, one line
`-d <name> <shape>` where `<shape>` is the Python `str` of the list of
integer dimension values.

The embedding mirrors the ONNX protobuf structures the script touches
(`ModelProto.graph.input[i].type.tensor_type.shape.dim[j].dim_value`),
the Python textual rendering of an `int` and of a `list` of `int`s, the
per-input formatting line, and the whole CLI run (argparse, `onnx.load`,
`print`) as a function on an explicit world state.
-/

/-- Protobuf `TensorShapeProto.Dimension`'s `value` oneof: a fixed
integer `dim_value`, a symbolic `dim_param`, or unset. -/
inductive DimensionValue : Type
  | dimValue (i : Int)
  | dimParam (s : String)
  | unset
deriving DecidableEq

/-- One entry of `TensorShapeProto.dim`. -/
structure Dimension where
  value : DimensionValue
deriving DecidableEq

/-- Protobuf field-accessor semantics of `dim.dim_value`: reading the
`int64` field of the oneof yields the stored integer when the `dim_value`
arm is set, and the proto3 default `0` when the oneof holds the symbolic
`dim_param` arm or is unset. -/
def Dimension.dim_value (d : Dimension) : Int :=
  match d.value with
  | .dimValue i => i
  | .dimParam _ => 0
  | .unset => 0

/-- ONNX `TensorShapeProto`: an ordered list of dimensions. -/
structure TensorShapeProto where
  dim : List Dimension
deriving DecidableEq

/-- ONNX `TypeProto.Tensor` (accessed as `input.type.tensor_type`). -/
structure TensorTypeProto where
  elem_type : Int
  shape : TensorShapeProto
deriving DecidableEq

/-- ONNX `TypeProto`. -/
structure TypeProto where
  tensor_type : TensorTypeProto
deriving DecidableEq

/-- ONNX `ValueInfoProto`: a named, typed graph input (or output). -/
structure ValueInfoProto where
  name : String
  type : TypeProto
deriving DecidableEq

/-- ONNX `NodeProto` (not read by the script; present so that models can
differ outside their input lists). -/
structure NodeProto where
  op_type : String
  name : String
  input : List String
  output : List String
deriving DecidableEq

/-- ONNX `GraphProto`.  The script reads only the `input` field. -/
structure GraphProto where
  name : String
  node : List NodeProto
  input : List ValueInfoProto
  output : List ValueInfoProto
deriving DecidableEq

/-- ONNX `ModelProto`.  The script reads only `graph`. -/
structure ModelProto where
  ir_version : Int
  producer_name : String
  graph : GraphProto
deriving DecidableEq

/-- Python `str` of an `int` (used by the f-string when rendering each
list element): Lean's `toString` on `Int` is the same decimal rendering,
optional `-` sign followed by base-10 digits. -/
def pyIntStr (i : Int) : String := toString i

/-- Elements of a Python list repr, separated by `", "`. -/
def pyListStrAux : List Int → String
  | [] => ""
  | [i] => pyIntStr i
  | i :: rest => pyIntStr i ++ ", " ++ pyListStrAux rest

/-- Python `str` of a `list` of `int`s, as the f-string `f"... {shape}"`
renders it: `"[]"` for the empty list, otherwise the elements' decimal
renderings separated by `", "`, in square brackets. -/
def pyListStr (xs : List Int) : String := "[" ++ pyListStrAux xs ++ "]"

/-- Line 10 of the script:
`shape = [int(dim.dim_value) for dim in input.type.tensor_type.shape.dim]`.
Python's `int` applied to the `int64` field value is the identity. -/
def shapeInts (input : ValueInfoProto) : List Int :=
  input.type.tensor_type.shape.dim.map (fun dim => dim.dim_value)

/-- Lines 9–11 of the script: one loop iteration's formatted line
`res = f"-d {input_name} {shape}"` for one graph input. -/
def inputLine (input : ValueInfoProto) : String :=
  "-d " ++ input.name ++ " " ++ pyListStr (shapeInts input)

/-- Lines 8–12 of the script: the list of lines printed, one `print(res)`
per entry of `model.graph.input`, in order. -/
def get_onnx_info (model : ModelProto) : List String :=
  model.graph.input.map inputLine

/-- The whole byte stream the script writes to standard output: each
printed line followed by the newline that `print` appends. -/
def programStdout (model : ModelProto) : String :=
  String.join ((get_onnx_info model).map (fun line => line ++ "\n"))

/-- The observable state of the world around one process run: the file
system (a map from paths to byte contents, `none` for a file that does
not exist or cannot be read), the messages sent on the network, and the
two output streams.  The script can only ever append to the streams. -/
structure World where
  fs : String → Option (List Nat)
  network : List String
  stdout : String
  stderr : String

/-- Modelled from the spec: the usage diagnostic argparse prints when the
required positional `onnxfile` argument is absent (`parser.add_argument('onnxfile', ...)`,
lines 4–6); argparse then exits with status 2. -/
def usageMessage : String :=
  "usage: get_onnx_info.py [-h] onnxfile\n" ++
  "get_onnx_info.py: error: the following arguments are required: onnxfile\n"

/-- Modelled from the spec: the diagnostic of the uncaught exception that
`onnx.load` raises on a missing or unreadable file. -/
def loadFailureMessage (onnxfile : String) : String :=
  "onnx.load: failed to read " ++ onnxfile ++ "\n"

/-- The whole script as one run over an explicit world.  Returns the
world after the run together with the process exit status.

* Lines 4–6: argparse — with exactly one positional argument the run
  proceeds; otherwise argparse prints its usage diagnostic on stderr and
  the process exits with status 2, before any model is loaded.
* Line 7: `onnx.load(args.onnxfile)` — the external deserializer, taken
  as a black box (spec §6): reading the file's bytes from the file
  system, then a parse function `onnxParse` supplied as a parameter.
  Either failure raises an uncaught exception: the Python runtime prints
  a diagnostic on stderr and the process exits with status 1, printing
  nothing on stdout.
* Lines 8–12: on success, the loop prints `programStdout model` on
  stdout and the process exits with status 0. -/
def runProgram (onnxParse : List Nat → Except String ModelProto)
    (argv : List String) (w : World) : World × Nat :=
  match argv with
  | [onnxfile] =>
    match w.fs onnxfile with
    | none => ({ w with stderr := w.stderr ++ loadFailureMessage onnxfile }, 1)
    | some bytes =>
      match onnxParse bytes with
      | .error msg => ({ w with stderr := w.stderr ++ msg ++ "\n" }, 1)
      | .ok model => ({ w with stdout := w.stdout ++ programStdout model }, 0)
  | _ => ({ w with stderr := w.stderr ++ usageMessage }, 2)

/-- The spec's line pattern `-d <name> [<int>(, <int>)*]`, stated in the
spec's words: some name, then a bracketed, comma-separated list of ONE OR
MORE integers.  (This is the spec-side pattern to compare the emitted
lines against; `pyListStr dims` with `dims ≠ []` is exactly a bracketed
`", "`-separated list of one or more decimal integers.) -/
def MatchesSpecPattern (s : String) : Prop :=
  ∃ (nm : String) (dims : List Int),
    dims ≠ [] ∧ s = "-d " ++ nm ++ " " ++ pyListStr dims

/-! ## Concrete sample models (used by witnesses and counterexamples) -/

def mkInput (nm : String) (ds : List Dimension) : ValueInfoProto :=
  { name := nm, type := { tensor_type := { elem_type := 1, shape := { dim := ds } } } }

/-- A typical image-classification input: name `input`, static shape
`[1, 3, 224, 224]`. -/
def resnetInput : ValueInfoProto :=
  mkInput "input" [⟨.dimValue 1⟩, ⟨.dimValue 3⟩, ⟨.dimValue 224⟩, ⟨.dimValue 224⟩]

/-- A small concrete model with one input, one node and one output. -/
def resnetModel : ModelProto :=
  { ir_version := 8
    producer_name := "pytorch"
    graph :=
      { name := "main_graph"
        node := [{ op_type := "Relu", name := "relu_0", input := ["input"], output := ["out"] }]
        input := [resnetInput]
        output := [mkInput "out" [⟨.dimValue 1⟩, ⟨.dimValue 1000⟩]] } }

/-- A model with the same input list as `resnetModel` but a different
producer, version, graph name, node list and output list. -/
def resnetModelB : ModelProto :=
  { ir_version := 9
    producer_name := "tf2onnx"
    graph := { name := "other", node := [], input := [resnetInput], output := [] } }

/-- A model whose single input `x` declares a rank-0 (scalar) tensor:
its shape has zero dimensions. -/
def scalarInputModel : ModelProto :=
  { ir_version := 8
    producer_name := "pytorch"
    graph := { name := "g", node := [], input := [mkInput "x" []], output := [] } }

/-- A model that declares no graph inputs at all. -/
def noInputModel : ModelProto :=
  { ir_version := 8
    producer_name := "pytorch"
    graph := { name := "g", node := [], input := [], output := [] } }

/-- A model whose input has a symbolic batch dimension `dim_param = "N"`
and an unset dimension besides a fixed one. -/
def symbolicModel : ModelProto :=
  { ir_version := 8
    producer_name := "pytorch"
    graph :=
      { name := "g"
        node := []
        input := [mkInput "tokens" [⟨.dimParam "N"⟩, ⟨.dimValue 128⟩, ⟨.unset⟩]]
        output := [] } }

/-- A concrete stand-in for the external deserializer: byte string `[0]`
parses to the no-input model, `[1]` to `resnetModel`, everything else is
a malformed container. -/
def sampleParse : List Nat → Except String ModelProto :=
  fun bytes =>
    if bytes = [0] then .ok noInputModel
    else if bytes = [1] then .ok resnetModel
    else .error "onnx.load: protobuf parsing failed"

/-- A concrete world holding two valid model files. -/
def sampleWorld : World :=
  { fs := fun p =>
      if p = "empty.onnx" then some [0]
      else if p = "resnet.onnx" then some [1]
      else if p = "corrupt.onnx" then some [9]
      else none
    network := []
    stdout := ""
    stderr := "" }

/-- A second world that agrees with `sampleWorld` on the file
`resnet.onnx` but differs elsewhere (other files, network, stderr). -/
def sampleWorldB : World :=
  { fs := fun p => if p = "resnet.onnx" then some [1] else none
    network := ["ping"]
    stdout := ""
    stderr := "old diagnostics" }

/-! ## Helper lemmas about the decimal rendering -/

theorem toDigitsCore_length_le (b fuel n : Nat) (ds : List Char) :
    ds.length ≤ (Nat.toDigitsCore b fuel n ds).length := by
  induction fuel generalizing n ds with
  | zero => simp [Nat.toDigitsCore]
  | succ f ih =>
    unfold Nat.toDigitsCore
    by_cases h : n / b = 0
    · simp [h]
    · simpa [h] using
        le_trans (Nat.le_succ ds.length) (ih (n / b) ((n % b).digitChar :: ds))

theorem toDigits_ne_nil (b n : Nat) : Nat.toDigits b n ≠ [] := by
  unfold Nat.toDigits Nat.toDigitsCore
  by_cases h : n / b = 0
  · simp [h]
  · simp only [h, if_false]
    intro hnil
    have hle := toDigitsCore_length_le b n (n / b) [Nat.digitChar (n % b)]
    rw [hnil] at hle
    simp at hle

theorem pyIntStr_data_ne_nil (i : Int) : (pyIntStr i).data ≠ [] := by
  cases i with
  | ofNat m =>
    show (Nat.toDigits 10 m).asString.data ≠ []
    exact toDigits_ne_nil 10 m
  | negSucc m =>
    show ("-" ++ Nat.repr (m + 1)).data ≠ []
    simp [String.data_append]

theorem pyListStrAux_cons_data_ne_nil (d : Int) (ds : List Int) :
    (pyListStrAux (d :: ds)).data ≠ [] := by
  cases ds with
  | nil => exact pyIntStr_data_ne_nil d
  | cons e es =>
    show (pyIntStr d ++ ", " ++ pyListStrAux (e :: es)).data ≠ []
    simp only [String.data_append, List.append_ne_nil_of_left_ne_nil,
      List.append_assoc, ne_eq, List.append_eq_nil]
    intro h
    exact pyIntStr_data_ne_nil d h.1

/-! ## C1 -/

/-- C1: for every (loaded) model with N declared graph inputs the
program emits exactly N lines, one per input, in the order of the
model's input list: the i-th emitted line is the formatted line of the
i-th declared input. -/
theorem c1_one_line_per_input (m : ModelProto) :
    (get_onnx_info m).length = m.graph.input.length ∧
    ∀ i : Nat, (get_onnx_info m)[i]? = (m.graph.input[i]?).map inputLine := by
  refine ⟨by simp [get_onnx_info], fun i => ?_⟩
  simp [get_onnx_info]

/-! ## C2 -/

/-- C2: for a model whose first declared input is named `input` with
tensor-type shape dimensions `[1, 3, 224, 224]`, the first emitted line
is exactly `-d input [1, 3, 224, 224]`. -/
theorem c2_first_line (m : ModelProto) (vi : ValueInfoProto)
    (rest : List ValueInfoProto)
    (hinp : m.graph.input = vi :: rest)
    (hname : vi.name = "input")
    (hshape : shapeInts vi = [1, 3, 224, 224]) :
    (get_onnx_info m).head? = some "-d input [1, 3, 224, 224]" := by
  simp only [get_onnx_info, hinp, List.map_cons, List.head?_cons,
    inputLine, hname, hshape, Option.some.injEq]
  decide

/-- Witness for C2 at the concrete model `resnetModel`. -/
theorem c2_witness :
    (get_onnx_info resnetModel).head? = some "-d input [1, 3, 224, 224]" :=
  c2_first_line resnetModel resnetInput [] (by rfl) (by rfl) (by rfl)

/-! ## C3 -/

/-- C3 counterexample: a model whose input `x` has a shape with zero
dimensions (a scalar) is emitted as `-d x []`, and that line does NOT
match the spec's pattern `-d <name> [<int>(, <int>)*]`, which requires
one or more integers between the brackets. -/
theorem c3_counterexample :
    get_onnx_info scalarInputModel = ["-d x []"] ∧
    ¬ MatchesSpecPattern "-d x []" := by
  refine ⟨by rfl, ?_⟩
  rintro ⟨nm, dims, hdne, heq⟩
  cases dims with
  | nil => exact hdne rfl
  | cons d ds =>
    have haux : (pyListStrAux (d :: ds)).data ≠ [] := pyListStrAux_cons_data_ne_nil d ds
    have hdata := congrArg String.data heq
    simp only [pyListStr, String.data_append] at hdata
    have haux1 : 1 ≤ (pyListStrAux (d :: ds)).data.length := by
      cases h : (pyListStrAux (d :: ds)).data with
      | nil => exact absurd h haux
      | cons a l => simp
    have hlen := congrArg List.length hdata
    simp only [List.length_append, List.length_cons, List.length_nil] at hlen
    have hnm0 : nm.data = [] := List.length_eq_zero.mp (by omega)
    rw [hnm0] at hdata
    simp only [List.nil_append, List.cons_append, List.append_nil] at hdata
    simp at hdata

/-- C3 amended: every emitted line for an input with at least one
declared dimension matches the spec pattern
`-d <name> [<int>(, <int>)*]`; an input with zero dimensions instead
yields the line `-d <name> []`, with no integer between the brackets. -/
theorem c3_line_pattern (vi : ValueInfoProto) :
    (shapeInts vi ≠ [] → MatchesSpecPattern (inputLine vi)) ∧
    (shapeInts vi = [] → inputLine vi = "-d " ++ vi.name ++ " " ++ "[]") := by
  constructor
  · intro h
    exact ⟨vi.name, shapeInts vi, h, rfl⟩
  · intro h
    simp only [inputLine, h]
    rfl

/-- Witness for C3 (amended) at the concrete input `resnetInput`. -/
theorem c3_witness : MatchesSpecPattern (inputLine resnetInput) :=
  (c3_line_pattern resnetInput).1 (by decide)
/-! ## C4 -/

/-- C4: a (loadable) model declaring zero graph inputs produces zero
lines on standard output and the process exits with status 0. -/
theorem c4_zero_inputs (onnxParse : List Nat → Except String ModelProto)
    (w : World) (f : String) (bytes : List Nat) (model : ModelProto)
    (hfs : w.fs f = some bytes) (hp : onnxParse bytes = .ok model)
    (hzero : model.graph.input = []) :
    get_onnx_info model = [] ∧
    (runProgram onnxParse [f] w).1.stdout = w.stdout ∧
    (runProgram onnxParse [f] w).2 = 0 := by
  have hlines : get_onnx_info model = [] := by simp [get_onnx_info, hzero]
  refine ⟨hlines, ?_, ?_⟩ <;>
    simp [runProgram, hfs, hp, programStdout, hlines, String.join]

/-- Witness for C4: running on `empty.onnx` in `sampleWorld`. -/
theorem c4_witness :
    get_onnx_info noInputModel = [] ∧
    (runProgram sampleParse ["empty.onnx"] sampleWorld).1.stdout = sampleWorld.stdout ∧
    (runProgram sampleParse ["empty.onnx"] sampleWorld).2 = 0 :=
  c4_zero_inputs sampleParse sampleWorld "empty.onnx" [0] noInputModel
    (by decide) (by rfl) (by rfl)

/-! ## C5 -/

/-- C5: if the file at the given path does not exist / cannot be read,
or its bytes are not a valid model container, the run exits with a
non-zero status and standard output is untouched (no `-d` line is
emitted); the failure surfaces as the uncaught load error. -/
theorem c5_load_failure (onnxParse : List Nat → Except String ModelProto)
    (w : World) (f : String)
    (hfail : w.fs f = none ∨
      ∃ bytes msg, w.fs f = some bytes ∧ onnxParse bytes = .error msg) :
    (runProgram onnxParse [f] w).2 ≠ 0 ∧
    (runProgram onnxParse [f] w).1.stdout = w.stdout := by
  rcases hfail with h | ⟨bytes, msg, hb, hp⟩
  · simp [runProgram, h]
  · simp [runProgram, hb, hp]

/-- Witness for C5: the nonexistent path `missing.onnx` in
`sampleWorld`. -/
theorem c5_witness :
    (runProgram sampleParse ["missing.onnx"] sampleWorld).2 ≠ 0 ∧
    (runProgram sampleParse ["missing.onnx"] sampleWorld).1.stdout = sampleWorld.stdout :=
  c5_load_failure sampleParse sampleWorld "missing.onnx" (Or.inl (by decide))

/-! ## C6 -/

/-- C6: invoked with no command-line arguments, the run exits with
argparse's status 2 (non-zero), prints the (non-empty) usage message on
stderr, and emits nothing on standard output. -/
theorem c6_no_arguments (onnxParse : List Nat → Except String ModelProto)
    (w : World) :
    (runProgram onnxParse [] w).2 = 2 ∧
    (runProgram onnxParse [] w).1.stdout = w.stdout ∧
    (runProgram onnxParse [] w).1.stderr = w.stderr ++ usageMessage ∧
    usageMessage ≠ "" :=
  ⟨rfl, rfl, rfl, by decide⟩

/-! ## C7 -/

/-- C7: the output is a deterministic function of the file's contents:
two runs on the same path, in worlds that agree on that file's bytes
(and start with the same stdout), produce byte-identical standard
output, whatever the rest of the two worlds look like. -/
theorem c7_deterministic (onnxParse : List Nat → Except String ModelProto)
    (p : String) (w₁ w₂ : World)
    (hfs : w₁.fs p = w₂.fs p) (hout : w₁.stdout = w₂.stdout) :
    (runProgram onnxParse [p] w₁).1.stdout = (runProgram onnxParse [p] w₂).1.stdout := by
  rcases h2 : w₂.fs p with _ | bytes
  · have h1 : w₁.fs p = none := by rw [hfs, h2]
    simp [runProgram, h1, h2, hout]
  · have h1 : w₁.fs p = some bytes := by rw [hfs, h2]
    cases hp : onnxParse bytes with
    | error msg => simp [runProgram, h1, h2, hp, hout]
    | ok model => simp [runProgram, h1, h2, hp, hout]

/-- Witness for C7: `sampleWorld` and `sampleWorldB` differ in network,
stderr and the other files, yet agree on `resnet.onnx`, so the two runs
print the same bytes. -/
theorem c7_witness :
    (runProgram sampleParse ["resnet.onnx"] sampleWorld).1.stdout =
      (runProgram sampleParse ["resnet.onnx"] sampleWorldB).1.stdout :=
  c7_deterministic sampleParse "resnet.onnx" sampleWorld sampleWorldB
    (by decide) (by rfl)

/-! ## C8 -/

/-- C8: frame property of a run — the file system and the network are
untouched on every path through the program, and the two output streams
are append-only (in the pure embedding the loaded model value is
immutable by construction). -/
theorem c8_frame (onnxParse : List Nat → Except String ModelProto)
    (argv : List String) (w : World) :
    (runProgram onnxParse argv w).1.fs = w.fs ∧
    (runProgram onnxParse argv w).1.network = w.network ∧
    ∃ out err, (runProgram onnxParse argv w).1.stdout = w.stdout ++ out ∧
      (runProgram onnxParse argv w).1.stderr = w.stderr ++ err := by
  rcases argv with _ | ⟨f, _ | ⟨g, rest⟩⟩
  · exact ⟨rfl, rfl, "", usageMessage, by simp [runProgram], rfl⟩
  · cases hf : w.fs f with
    | none =>
      refine ⟨?_, ?_, "", loadFailureMessage f, ?_, ?_⟩ <;> simp [runProgram, hf]
    | some bytes =>
      cases hp : onnxParse bytes with
      | error msg =>
        refine ⟨?_, ?_, "", msg ++ "\n", ?_, ?_⟩ <;>
          simp [runProgram, hf, hp, String.append_assoc]
      | ok model =>
        refine ⟨?_, ?_, programStdout model, "", ?_, ?_⟩ <;> simp [runProgram, hf, hp]
  · exact ⟨rfl, rfl, "", usageMessage, by simp [runProgram], rfl⟩

/-! ## C9 -/

/-- C9: a dimension whose descriptor is symbolic (`dim_param`) or unset
carries the proto3 default `0` in its `dim_value` field, so the shape
the program prints holds `0` at that position (and the run does not
fail: the formatting is total). -/
theorem c9_symbolic_dim_zero (vi : ValueInfoProto) (k : Nat) (d : Dimension)
    (hk : vi.type.tensor_type.shape.dim[k]? = some d)
    (hsym : ∀ i : Int, d.value ≠ .dimValue i) :
    (shapeInts vi)[k]? = some 0 := by
  have hdv : d.dim_value = 0 := by
    cases hv : d.value with
    | dimValue i => exact absurd hv (hsym i)
    | dimParam s => simp [Dimension.dim_value, hv]
    | unset => simp [Dimension.dim_value, hv]
  simp [shapeInts, hk, hdv]

/-- Witness for C9: the symbolic batch dimension `N` of
`symbolicModel`'s input prints as `0`. -/
theorem c9_witness :
    (shapeInts (mkInput "tokens" [⟨.dimParam "N"⟩, ⟨.dimValue 128⟩, ⟨.unset⟩]))[0]? = some 0 :=
  c9_symbolic_dim_zero (mkInput "tokens" [⟨.dimParam "N"⟩, ⟨.dimValue 128⟩, ⟨.unset⟩])
    0 ⟨.dimParam "N"⟩ (by rfl) (by simp)

/-! ## C10 -/

theorem map_inputLine_congr (l₁ l₂ : List ValueInfoProto)
    (hn : l₁.map ValueInfoProto.name = l₂.map ValueInfoProto.name)
    (hs : l₁.map shapeInts = l₂.map shapeInts) :
    l₁.map inputLine = l₂.map inputLine := by
  induction l₁ generalizing l₂ with
  | nil =>
    cases l₂ with
    | nil => rfl
    | cons b bs => simp at hn
  | cons a as ih =>
    cases l₂ with
    | nil => simp at hn
    | cons b bs =>
      simp only [List.map_cons, List.cons.injEq] at hn hs ⊢
      refine ⟨?_, ih bs hn.2 hs.2⟩
      simp only [inputLine]
      rw [hn.1, hs.1]

/-- C10: the printed bytes depend only on the graph's input list — two
models whose inputs agree on every name and on every dimension's integer
value produce identical standard output, whatever their nodes, outputs,
producer or version are. -/
theorem c10_output_depends_only_on_inputs (m₁ m₂ : ModelProto)
    (hn : m₁.graph.input.map ValueInfoProto.name = m₂.graph.input.map ValueInfoProto.name)
    (hs : m₁.graph.input.map shapeInts = m₂.graph.input.map shapeInts) :
    programStdout m₁ = programStdout m₂ := by
  unfold programStdout get_onnx_info
  rw [map_inputLine_congr _ _ hn hs]

/-- Witness for C10: `resnetModel` and `resnetModelB` differ everywhere
but in their input lists, and print the same bytes. -/
theorem c10_witness : programStdout resnetModel = programStdout resnetModelB :=
  c10_output_depends_only_on_inputs resnetModel resnetModelB (by rfl) (by rfl)
